import Mathlib

/-!
Verification of the Chiral Network presentation layer: the block explorer
panel (`src/lib/components/BlockExplorer.svelte`) and the all-transactions
inspector panel. Each component function is embedded as an explicit state
transformer that also records the remote operations it issues through the
Tauri `invoke` bridge, together with the timeout guard (if any) racing them.
-/

namespace ChiralNetwork

/-- The `BlockDetail` interface of `BlockExplorer.svelte` (lines 5-12).
The `transactions` field is `any[]` in the source and is only ever rendered;
we embed it as a list of transaction hashes. -/
structure BlockDetail where
  number : Int
  hash : String
  miner : String
  timestamp : Nat
  transaction_count : Int
  transactions : List String
deriving DecidableEq, Repr

/-- The `TransactionDetail` interface of `BlockExplorer.svelte` (lines 14-21).
`from`/`to` are Lean keywords, so they are embedded as `fromAddr`/`toAddr`. -/
structure TransactionDetail where
  hash : String
  fromAddr : String
  toAddr : String
  value : String
  gas : String
  gasPrice : String
deriving DecidableEq, Repr

/-- The mutable component-local state of `BlockExplorer.svelte`
(lines 23-35), one field per `let`/`const` binding. -/
structure ExplorerState where
  blocks : List BlockDetail
  error : Option String
  offset : Int
  currentHeight : Int
  selectedBlock : Option BlockDetail
  transactionHash : String
  transactionResult : Option TransactionDetail
  addressBalance : String
  balanceResult : Option String
  balanceError : Option String
  isLoading : Bool
  isTauri : Bool
deriving DecidableEq, Repr

/-- A single call through the remote-invocation bridge `invoke(command, args)`:
there are exactly four command call sites across the two components. -/
inductive InvokeCall where
  | getLatestBlocks (limit : Int) (offset : Int)
  | getCurrentBlock
  | getAccountBalance (address : String)
  | getAllTransactions
deriving DecidableEq, Repr

/-- One remote operation issued by a component function: the invoke calls it
makes, and the timeout (in milliseconds) they are raced against, if any. -/
structure RemoteOp where
  calls : List InvokeCall
  timeoutMs : Option Nat
deriving DecidableEq, Repr

/-- The environment's answer to the raced block fetch in `fetchBlocks`:
either both promises resolve (blocks and height), or the whole race rejects
(a backend error or the 10000 ms timeout firing). -/
inductive FetchBlocksOutcome where
  | success (blocks : List BlockDetail) (height : Int)
  | failure
deriving DecidableEq, Repr

/-- The environment's answer to the `get_account_balance` call. -/
inductive BalanceOutcome where
  | ok (balance : String)
  | err (e : String)
deriving DecidableEq, Repr

/-- `const limit = 10` (`BlockExplorer.svelte` line 26). -/
def limit : Int := 10

/-- The error string set by `fetchBlocks` and `onMount` outside Tauri
(lines 39 and 154). -/
def requiresTauriMsg : String :=
  "Block explorer requires Tauri desktop app. Please run \"npm run tauri dev\" instead of \"npm run dev\"."

/-- The error string set when the raced block fetch rejects (line 62). -/
def fetchFailMsg : String :=
  "Failed to fetch blockchain data. Please start the Geth node on the <a href=\"/network\" class=\"text-blue-300 hover:underline\">Network page</a>."

/-- The placeholder block installed by the failure branch of `fetchBlocks`
when the blocks list is empty (lines 65-72); `now` stands for
`Math.floor(Date.now() / 1000)`. -/
def placeholderBlock (now : Nat) : BlockDetail :=
  { number := 0
    hash := "0x0000000000000000000000000000000000000000000000000000000000000000"
    miner := "0x0000000000000000000000000000000000000000"
    timestamp := now
    transaction_count := 0
    transactions := [] }

/-- The all-zero address used by the fabricated transaction record. -/
def zeroAddress : String := "0x0000000000000000000000000000000000000000"

/-- JavaScript's `String.prototype.trim()`: the string with leading and
trailing whitespace removed. Embedded structurally over the character
list (the library's trim is not kernel-reducible). -/
def jsTrim (s : String) : String :=
  ⟨(((s.data.dropWhile Char.isWhitespace).reverse.dropWhile Char.isWhitespace).reverse)⟩

/-- The remote operation issued by `fetchBlocks`: the pair
`get_latest_blocks(limit, offset)` and `get_current_block()` raced against
the 10000 ms timeout promise (lines 48-58). -/
def blockFetchOp (offset : Int) : RemoteOp :=
  { calls := [InvokeCall.getLatestBlocks limit offset, InvokeCall.getCurrentBlock]
    timeoutMs := some 10000 }

/-- `fetchBlocks` (`BlockExplorer.svelte` lines 37-78). Outside Tauri it
sets the fixed error and returns without invoking. Inside Tauri it races
the invoke pair against a 10000 ms timeout; on success it stores the blocks
and height; on failure it sets the error string and, only when the blocks
list is empty, installs the placeholder block and resets `currentHeight`
to 0. `isLoading` ends false via the `finally` clause. -/
def fetchBlocks (s : ExplorerState) (o : FetchBlocksOutcome) (now : Nat) :
    ExplorerState × List RemoteOp :=
  if !s.isTauri then
    ({ s with error := some requiresTauriMsg, isLoading := false }, [])
  else
    match o with
    | FetchBlocksOutcome.success bs h =>
        ({ s with isLoading := false, error := none, blocks := bs, currentHeight := h },
         [blockFetchOp s.offset])
    | FetchBlocksOutcome.failure =>
        if s.blocks.isEmpty then
          ({ s with isLoading := false, error := some fetchFailMsg,
                    blocks := [placeholderBlock now], currentHeight := 0 },
           [blockFetchOp s.offset])
        else
          ({ s with isLoading := false, error := some fetchFailMsg },
           [blockFetchOp s.offset])

/-- `fetchTransaction` (lines 80-103): blank (trimmed-empty) input returns
immediately; outside Tauri it sets `balanceError`; inside Tauri it stores a
fabricated record with the entered hash and fixed placeholder fields,
issuing no invoke call. -/
def fetchTransaction (s : ExplorerState) : ExplorerState × List RemoteOp :=
  if jsTrim s.transactionHash = "" then (s, [])
  else if !s.isTauri then
    ({ s with balanceError := some "Transaction lookup requires Tauri desktop app." }, [])
  else
    ({ s with balanceError := none,
              transactionResult := some
                { hash := s.transactionHash
                  fromAddr := zeroAddress
                  toAddr := zeroAddress
                  value := "0"
                  gas := "21000"
                  gasPrice := "20000000000" } }, [])

/-- `fetchBalance` (lines 105-120): blank input returns immediately; outside
Tauri it sets `balanceError`; inside Tauri it invokes
`get_account_balance(address)` (no timeout guard) and stores the result
suffixed with " ETH", or the error. -/
def fetchBalance (s : ExplorerState) (o : BalanceOutcome) :
    ExplorerState × List RemoteOp :=
  if jsTrim s.addressBalance = "" then (s, [])
  else if !s.isTauri then
    ({ s with balanceError := some "Balance check requires Tauri desktop app." }, [])
  else
    match o with
    | BalanceOutcome.ok b =>
        ({ s with balanceError := none, balanceResult := some (b ++ " ETH") },
         [{ calls := [InvokeCall.getAccountBalance s.addressBalance], timeoutMs := none }])
    | BalanceOutcome.err e =>
        ({ s with balanceError := some e },
         [{ calls := [InvokeCall.getAccountBalance s.addressBalance], timeoutMs := none }])

/-- `nextPage` (lines 122-125): `offset += limit` then `fetchBlocks()`. -/
def nextPage (s : ExplorerState) (o : FetchBlocksOutcome) (now : Nat) :
    ExplorerState × List RemoteOp :=
  fetchBlocks { s with offset := s.offset + limit } o now

/-- `prevPage` (lines 127-130): `offset = Math.max(0, offset - limit)` then
`fetchBlocks()`. -/
def prevPage (s : ExplorerState) (o : FetchBlocksOutcome) (now : Nat) :
    ExplorerState × List RemoteOp :=
  fetchBlocks { s with offset := max 0 (s.offset - limit) } o now

/-- The window globals inspected by the Tauri detection in `onMount`
(lines 142-145). -/
structure WindowEnv where
  hasWindow : Bool
  tauriGlobal : Bool
  tauriInternals : Bool
  tauriMetadata : Bool
deriving DecidableEq, Repr

/-- The Tauri detection expression of `onMount` (lines 142-145):
`typeof window !== 'undefined' && (window.__TAURI__ !== undefined ||
window.__TAURI_INTERNALS__ !== undefined ||
window.__TAURI_METADATA__ !== undefined)`. -/
def isTauriOf (w : WindowEnv) : Bool :=
  w.hasWindow && (w.tauriGlobal || w.tauriInternals || w.tauriMetadata)

/-- An interval timer installed via `setInterval(action, delayMs)`. -/
structure IntervalTimer where
  delayMs : Nat
  action : ExplorerState → FetchBlocksOutcome → Nat → ExplorerState × List RemoteOp

/-- The observable result of running the block explorer's `onMount` handler:
the state after the handler (and initial fetch, if any), the remote
operations issued, the interval installed (if any), and whether the returned
cleanup clears that interval. -/
structure MountResult where
  state : ExplorerState
  ops : List RemoteOp
  interval : Option IntervalTimer
  cleanupClearsInterval : Bool

/-- `onMount` of `BlockExplorer.svelte` (lines 140-156): computes `isTauri`
from the window globals; inside Tauri it performs an initial `fetchBlocks`,
installs `setInterval(fetchBlocks, 10000)` and returns a cleanup clearing
it; otherwise it only sets the fixed error message. -/
def onMount (s : ExplorerState) (w : WindowEnv) (o : FetchBlocksOutcome) (now : Nat) :
    MountResult :=
  let s1 := { s with isTauri := isTauriOf w }
  if isTauriOf w then
    let r := fetchBlocks s1 o now
    { state := r.1
      ops := r.2
      interval := some { delayMs := 10000, action := fetchBlocks }
      cleanupClearsInterval := true }
  else
    { state := { s1 with error := some requiresTauriMsg }
      ops := []
      interval := none
      cleanupClearsInterval := false }

/-- Initial values of the component-local bindings (lines 23-35). -/
def initialState : ExplorerState :=
  { blocks := []
    error := none
    offset := 0
    currentHeight := 0
    selectedBlock := none
    transactionHash := ""
    transactionResult := none
    addressBalance := ""
    balanceResult := none
    balanceError := none
    isLoading := false
    isTauri := false }

/-- A user pagination action: pressing Next or Previous, together with the
environment's answer to the re-fetch each triggers. -/
inductive PageOp where
  | next (o : FetchBlocksOutcome) (now : Nat)
  | prev (o : FetchBlocksOutcome) (now : Nat)

/-- State after one pagination action (the issued ops are dropped). -/
def applyPageOp (s : ExplorerState) (op : PageOp) : ExplorerState :=
  match op with
  | PageOp.next o now => (nextPage s o now).1
  | PageOp.prev o now => (prevPage s o now).1

/-- State after a finite sequence of pagination actions. -/
def runPageOps (s : ExplorerState) (ops : List PageOp) : ExplorerState :=
  ops.foldl applyPageOp s

/-! The all-transactions inspector panel (the second component). -/

/-- A transaction record as rendered by the all-transactions panel; the
source treats elements as `any` and reads these fields in the template. -/
structure TxRecord where
  hash : String
  blockNumber : String
  fromAddr : String
  toAddr : String
  value : String
  gasPrice : String
  gas : String
  nonce : String
  input : String
  transactionIndex : String
deriving DecidableEq, Repr

/-- The component-local state of the all-transactions panel. -/
structure TxPageState where
  chainId : Int
  transactions : List TxRecord
  isLoading : Bool
  error : Option String
deriving DecidableEq, Repr

/-- A toast emitted through `svelte-sonner`. -/
inductive Toast where
  | info (msg : String)
  | error (msg : String)
deriving DecidableEq, Repr

/-- Initial bindings of the all-transactions panel: `chainId = 777`
(hardcoded), empty list, not loading, no error. -/
def txPageInitialState : TxPageState :=
  { chainId := 777, transactions := [], isLoading := false, error := none }

/-- `fetchAllTransactions` of the all-transactions panel (lines 13-29 of its
script): one `invoke('get_all_transactions')` with no timeout guard; on
success it stores the list (toasting when empty), on failure it sets and
toasts the error string; `isLoading` ends false via `finally`. -/
def fetchAllTransactions (s : TxPageState) (o : Except String (List TxRecord)) :
    TxPageState × List RemoteOp × List Toast :=
  let op : RemoteOp := { calls := [InvokeCall.getAllTransactions], timeoutMs := none }
  match o with
  | Except.ok txs =>
      ({ s with isLoading := false, error := none, transactions := txs },
       [op],
       if txs.isEmpty then [Toast.info "No transactions found on the blockchain."] else [])
  | Except.error e =>
      let msg := "Failed to fetch transactions: " ++ e
      ({ s with isLoading := false, error := some msg }, [op], [Toast.error msg])

/-- Mounting the all-transactions panel runs no script action: the component
declares no `onMount` handler (its script notes that the old `fetchChainId`
mount call was removed), so activation issues no remote operation. -/
def txPageOnMount (s : TxPageState) : TxPageState × List RemoteOp :=
  (s, [])

/-! Helper lemmas about `fetchBlocks`. -/

theorem fetchBlocks_ops_of_tauri (s : ExplorerState) (o : FetchBlocksOutcome) (now : Nat)
    (h : s.isTauri = true) : (fetchBlocks s o now).2 = [blockFetchOp s.offset] := by
  cases o <;> simp only [fetchBlocks, h, Bool.not_true, Bool.false_eq_true, if_false] <;>
    (try split) <;> rfl

theorem fetchBlocks_ops_of_not_tauri (s : ExplorerState) (o : FetchBlocksOutcome) (now : Nat)
    (h : s.isTauri = false) : (fetchBlocks s o now).2 = [] := by
  cases o <;> simp [fetchBlocks, h]

theorem fetchBlocks_offset (s : ExplorerState) (o : FetchBlocksOutcome) (now : Nat) :
    (fetchBlocks s o now).1.offset = s.offset := by
  unfold fetchBlocks
  cases o <;> split <;> (try split) <;> (try split) <;> rfl

theorem fetchBlocks_isTauri (s : ExplorerState) (o : FetchBlocksOutcome) (now : Nat) :
    (fetchBlocks s o now).1.isTauri = s.isTauri := by
  unfold fetchBlocks
  cases o <;> split <;> (try split) <;> (try split) <;> rfl

theorem applyPageOp_offset_invariant (s : ExplorerState) (op : PageOp)
    (h : 0 ≤ s.offset ∧ (10 : Int) ∣ s.offset) :
    0 ≤ (applyPageOp s op).offset ∧ (10 : Int) ∣ (applyPageOp s op).offset := by
  obtain ⟨h0, hd⟩ := h
  cases op <;>
    simp only [applyPageOp, nextPage, prevPage, fetchBlocks_offset, limit] <;>
    omega

theorem runPageOps_invariant (ops : List PageOp) (s : ExplorerState)
    (h : 0 ≤ s.offset ∧ (10 : Int) ∣ s.offset) :
    0 ≤ (runPageOps s ops).offset ∧ (10 : Int) ∣ (runPageOps s ops).offset := by
  induction ops generalizing s with
  | nil => simpa [runPageOps] using h
  | cons op rest ih =>
      simp only [runPageOps, List.foldl_cons]
      exact ih (applyPageOp s op) (applyPageOp_offset_invariant s op h)

/-! Claim theorems. -/

/-- C8: starting from the initial offset 0, after every finite sequence of
nextPage and prevPage operations the offset is a non-negative multiple
of 10; in particular prevPage never drives the offset below 0. -/
theorem c8_offset_nonneg_multiple_of_ten (ops : List PageOp) :
    0 ≤ (runPageOps initialState ops).offset ∧
      (10 : Int) ∣ (runPageOps initialState ops).offset :=
  runPageOps_invariant ops initialState (by decide)

/-- C3: for every input hash whose trimmed form is non-empty, when running
inside Tauri, fetchTransaction sets transactionResult to a record whose hash
equals the entered hash and whose remaining fields are the fixed placeholders
(from and to the all-zero address, value "0", gas "21000", gasPrice
"20000000000"), and it issues no backend invocation. -/
theorem c3_fetchTransaction_fabricated_record (s : ExplorerState)
    (hhash : ¬jsTrim s.transactionHash = "") (htauri : s.isTauri = true) :
    fetchTransaction s =
      ({ s with balanceError := none,
                transactionResult := some
                  { hash := s.transactionHash
                    fromAddr := "0x0000000000000000000000000000000000000000"
                    toAddr := "0x0000000000000000000000000000000000000000"
                    value := "0"
                    gas := "21000"
                    gasPrice := "20000000000" } }, []) := by
  simp [fetchTransaction, hhash, htauri, zeroAddress]

/-- Witness for C3 at the concrete hash "0xabc" inside Tauri. -/
theorem c3_fetchTransaction_fabricated_record_witness :
    fetchTransaction { initialState with transactionHash := "0xabc", isTauri := true } =
      ({ initialState with
           transactionHash := "0xabc", isTauri := true, balanceError := none,
           transactionResult := some
             { hash := "0xabc"
               fromAddr := "0x0000000000000000000000000000000000000000"
               toAddr := "0x0000000000000000000000000000000000000000"
               value := "0"
               gas := "21000"
               gasPrice := "20000000000" } }, []) :=
  c3_fetchTransaction_fabricated_record
    { initialState with transactionHash := "0xabc", isTauri := true } (by decide) rfl

/-- C9: on an input whose trimmed form is empty, fetchTransaction and
fetchBalance return immediately, issuing no remote call and leaving the
entire component state unchanged. -/
theorem c9_blank_input_guard (s : ExplorerState) (o : BalanceOutcome) :
    (jsTrim s.transactionHash = "" → fetchTransaction s = (s, [])) ∧
    (jsTrim s.addressBalance = "" → fetchBalance s o = (s, [])) := by
  constructor
  · intro h; simp [fetchTransaction, h]
  · intro h; simp [fetchBalance, h]

/-- Witness for C9 at the initial state, whose two inputs are empty. -/
theorem c9_blank_input_guard_witness :
    fetchTransaction initialState = (initialState, []) ∧
    fetchBalance initialState (BalanceOutcome.ok "1") = (initialState, []) :=
  ⟨(c9_blank_input_guard initialState (BalanceOutcome.ok "1")).1 (by decide),
   (c9_blank_input_guard initialState (BalanceOutcome.ok "1")).2 (by decide)⟩

/-- C4: nextPage re-fetches with offset + 10, prevPage re-fetches with
max(0, offset - 10), and every get_latest_blocks invocation passes exactly
the fixed limit 10 and the current offset. -/
theorem c4_pagination_offset_limit (s : ExplorerState) (o : FetchBlocksOutcome) (now : Nat) :
    nextPage s o now = fetchBlocks { s with offset := s.offset + 10 } o now ∧
    prevPage s o now = fetchBlocks { s with offset := max 0 (s.offset - 10) } o now ∧
    ∀ l off, InvokeCall.getLatestBlocks l off ∈
        ((fetchBlocks s o now).2.flatMap RemoteOp.calls) → l = 10 ∧ off = s.offset := by
  refine ⟨rfl, rfl, ?_⟩
  intro l off hmem
  by_cases h : s.isTauri
  · rw [fetchBlocks_ops_of_tauri s o now h] at hmem
    simp [blockFetchOp, limit, List.flatMap] at hmem
    exact hmem
  · rw [fetchBlocks_ops_of_not_tauri s o now (by simpa using h)] at hmem
    simp [List.flatMap] at hmem

/-- Witness for C4: the membership hypothesis discharged at a concrete
Tauri-mounted state. -/
theorem c4_pagination_offset_limit_witness :
    (10 : Int) = 10 ∧ (0 : Int) = ExplorerState.offset initialState :=
  (c4_pagination_offset_limit { initialState with isTauri := true }
      (FetchBlocksOutcome.success [] 0) 0).2.2 10 0 (by decide)

/-- C5: every remote operation of either panel goes through the invoke
bridge with one of the four commands of the stated interface and the stated
arguments: get_latest_blocks with the limit and the current offset,
get_current_block with no arguments, get_account_balance with the entered
address, and get_all_transactions with no arguments (each call site's
outcome being a value or an error is the outcome parameter). -/
theorem c5_invoke_command_surface (s : ExplorerState) (w : WindowEnv)
    (o : FetchBlocksOutcome) (now : Nat) (ob : BalanceOutcome) (t : TxPageState)
    (ot : Except String (List TxRecord)) :
    ((fetchBlocks s o now).2.flatMap RemoteOp.calls = [] ∨
     (fetchBlocks s o now).2.flatMap RemoteOp.calls =
       [InvokeCall.getLatestBlocks 10 s.offset, InvokeCall.getCurrentBlock]) ∧
    ((fetchBalance s ob).2.flatMap RemoteOp.calls = [] ∨
     (fetchBalance s ob).2.flatMap RemoteOp.calls =
       [InvokeCall.getAccountBalance s.addressBalance]) ∧
    (fetchTransaction s).2 = [] ∧
    (fetchAllTransactions t ot).2.1.flatMap RemoteOp.calls =
      [InvokeCall.getAllTransactions] ∧
    (txPageOnMount t).2 = [] ∧
    ((onMount s w o now).ops.flatMap RemoteOp.calls = [] ∨
     (onMount s w o now).ops.flatMap RemoteOp.calls =
       [InvokeCall.getLatestBlocks 10 s.offset, InvokeCall.getCurrentBlock]) := by
  refine ⟨?_, ?_, ?_, ?_, rfl, ?_⟩
  · by_cases h : s.isTauri
    · right; rw [fetchBlocks_ops_of_tauri s o now h]; rfl
    · left; rw [fetchBlocks_ops_of_not_tauri s o now (by simpa using h)]; rfl
  · unfold fetchBalance
    split
    · left; rfl
    · split
      · left; rfl
      · cases ob <;> (right; rfl)
  · unfold fetchTransaction
    split
    · rfl
    · split <;> rfl
  · cases ot <;> rfl
  · by_cases h : isTauriOf w
    · right
      simp only [onMount, h, if_true]
      rw [fetchBlocks_ops_of_tauri _ o now (by simpa using h)]
      rfl
    · left
      simp [onMount, h]

/-- C1 counterexample: contrary to the claim, the all-transactions panel
issues no remote call on activation (its mount runs nothing), and its one
remote call site, fetchAllTransactions, is not guarded by any timeout. -/
theorem c1_counterexample :
    (txPageOnMount txPageInitialState).2 = [] ∧
    (fetchAllTransactions txPageInitialState (Except.ok [])).2.1 =
      [{ calls := [InvokeCall.getAllTransactions], timeoutMs := none }] :=
  ⟨rfl, rfl⟩

/-- C1 amended: the block explorer, on mount inside Tauri, issues one remote
operation racing the pair get_latest_blocks/get_current_block against a
10000 ms timeout; the all-transactions panel issues no remote call on
activation, and its button-triggered fetchAllTransactions issues one
get_all_transactions call with no timeout guard. -/
theorem c1_amended_activation_calls (s : ExplorerState) (w : WindowEnv)
    (o : FetchBlocksOutcome) (now : Nat) (t : TxPageState)
    (ot : Except String (List TxRecord)) (h : isTauriOf w = true) :
    (onMount s w o now).ops =
      [{ calls := [InvokeCall.getLatestBlocks 10 s.offset, InvokeCall.getCurrentBlock],
         timeoutMs := some 10000 }] ∧
    (txPageOnMount t).2 = [] ∧
    (fetchAllTransactions t ot).2.1 =
      [{ calls := [InvokeCall.getAllTransactions], timeoutMs := none }] := by
  refine ⟨?_, rfl, ?_⟩
  · simp only [onMount, h, if_true]
    rw [fetchBlocks_ops_of_tauri _ o now (by simpa using h)]
    rfl
  · cases ot <;> rfl

/-- Witness for the amended C1 at a concrete Tauri window environment. -/
theorem c1_amended_activation_calls_witness :
    (onMount initialState ⟨true, true, false, false⟩
        (FetchBlocksOutcome.success [] 0) 0).ops =
      [{ calls := [InvokeCall.getLatestBlocks 10 0, InvokeCall.getCurrentBlock],
         timeoutMs := some 10000 }] ∧
    (txPageOnMount txPageInitialState).2 = [] ∧
    (fetchAllTransactions txPageInitialState (Except.error "boom")).2.1 =
      [{ calls := [InvokeCall.getAllTransactions], timeoutMs := none }] :=
  c1_amended_activation_calls initialState ⟨true, true, false, false⟩
    (FetchBlocksOutcome.success [] 0) 0 txPageInitialState (Except.error "boom") rfl

/-- C2 counterexample: a failed fetchBlocks on an empty blocks list DOES
repopulate the record state with substitute data: the placeholder block is
installed and currentHeight is reset from 5 to 0, contrary to the claim
that the only effect of the failure branch is the error message. -/
theorem c2_counterexample :
    ({ initialState with isTauri := true, currentHeight := 5 } : ExplorerState).blocks
        = [] ∧
    (fetchBlocks { initialState with isTauri := true, currentHeight := 5 }
        FetchBlocksOutcome.failure 1700000000).1.blocks
        = [placeholderBlock 1700000000] ∧
    (fetchBlocks { initialState with isTauri := true, currentHeight := 5 }
        FetchBlocksOutcome.failure 1700000000).1.currentHeight = 0 :=
  ⟨rfl, rfl, rfl⟩

/-- C2 amended: on failure, fetchBlocks leaves blocks and currentHeight
unchanged and only sets the error string when blocks was non-empty; when
blocks was empty, the failure branch additionally installs the placeholder
block and resets currentHeight to 0. -/
theorem c2_amended_failure_effects (s : ExplorerState) (now : Nat)
    (h : s.isTauri = true) :
    (s.blocks ≠ [] →
      (fetchBlocks s FetchBlocksOutcome.failure now).1.blocks = s.blocks ∧
      (fetchBlocks s FetchBlocksOutcome.failure now).1.currentHeight = s.currentHeight ∧
      (fetchBlocks s FetchBlocksOutcome.failure now).1.error = some fetchFailMsg) ∧
    (s.blocks = [] →
      (fetchBlocks s FetchBlocksOutcome.failure now).1.blocks = [placeholderBlock now] ∧
      (fetchBlocks s FetchBlocksOutcome.failure now).1.currentHeight = 0 ∧
      (fetchBlocks s FetchBlocksOutcome.failure now).1.error = some fetchFailMsg) := by
  constructor
  · intro hne
    simp [fetchBlocks, h, List.isEmpty_iff, hne]
  · intro he
    simp [fetchBlocks, h, List.isEmpty_iff, he]

/-- Witness for the amended C2: a failure over a non-empty blocks list keeps
it, a failure over the empty list installs the placeholder. -/
theorem c2_amended_failure_effects_witness :
    (fetchBlocks { initialState with isTauri := true, blocks := [placeholderBlock 7] }
        FetchBlocksOutcome.failure 9).1.blocks = [placeholderBlock 7] ∧
    (fetchBlocks { initialState with isTauri := true }
        FetchBlocksOutcome.failure 9).1.blocks = [placeholderBlock 9] :=
  ⟨((c2_amended_failure_effects
        { initialState with isTauri := true, blocks := [placeholderBlock 7] } 9 rfl).1
      (by simp)).1,
   ((c2_amended_failure_effects { initialState with isTauri := true } 9 rfl).2 rfl).1⟩

/-- C6 counterexample: with isTauri false and a whitespace-only input,
fetchTransaction returns WITHOUT setting any error message (both error and
balanceError stay none), contrary to the claim that whenever isTauri is
false each of the three functions returns after setting a fixed error. -/
theorem c6_counterexample :
    ({ initialState with transactionHash := " " } : ExplorerState).isTauri = false ∧
    fetchTransaction { initialState with transactionHash := " " } =
      ({ initialState with transactionHash := " " }, []) ∧
    (fetchTransaction { initialState with transactionHash := " " }).1.error = none ∧
    (fetchTransaction { initialState with transactionHash := " " }).1.balanceError = none :=
  ⟨rfl, rfl, rfl, rfl⟩

/-- C6 amended: isTauri is computed on mount solely from the window globals,
and whenever isTauri is false no remote call is issued: fetchBlocks always
sets its fixed error; fetchTransaction and fetchBalance set their fixed
errors only when their input's trimmed form is non-empty, and return
untouched (with no message) on a blank input. -/
theorem c6_amended_tauri_gate (s x : ExplorerState) (w : WindowEnv)
    (o : FetchBlocksOutcome) (now : Nat) (ob : BalanceOutcome)
    (h : s.isTauri = false) :
    (onMount x w o now).state.isTauri = isTauriOf w ∧
    fetchBlocks s o now = ({ s with error := some requiresTauriMsg, isLoading := false }, []) ∧
    (jsTrim s.transactionHash ≠ "" →
      fetchTransaction s =
        ({ s with balanceError := some "Transaction lookup requires Tauri desktop app." }, [])) ∧
    (jsTrim s.transactionHash = "" → fetchTransaction s = (s, [])) ∧
    (jsTrim s.addressBalance ≠ "" →
      fetchBalance s ob =
        ({ s with balanceError := some "Balance check requires Tauri desktop app." }, [])) ∧
    (jsTrim s.addressBalance = "" → fetchBalance s ob = (s, [])) := by
  refine ⟨?_, ?_, ?_, ?_, ?_, ?_⟩
  · by_cases hw : isTauriOf w
    · simp only [onMount, hw, if_true]
      rw [fetchBlocks_isTauri]
    · simp [onMount, hw]
  · cases o <;> simp [fetchBlocks, h]
  · intro hne; simp [fetchTransaction, hne, h]
  · intro he; simp [fetchTransaction, he]
  · intro hne; simp [fetchBalance, hne, h]
  · intro he; simp [fetchBalance, he]

/-- Witness for the amended C6 at a concrete non-Tauri state with non-blank
inputs. -/
theorem c6_amended_tauri_gate_witness :
    fetchBlocks { initialState with transactionHash := "h", addressBalance := "a" }
        FetchBlocksOutcome.failure 0 =
      ({ initialState with
           transactionHash := "h", addressBalance := "a",
           error := some requiresTauriMsg, isLoading := false }, []) ∧
    fetchTransaction { initialState with transactionHash := "h", addressBalance := "a" } =
      ({ initialState with
           transactionHash := "h", addressBalance := "a",
           balanceError := some "Transaction lookup requires Tauri desktop app." }, []) ∧
    fetchBalance { initialState with transactionHash := "h", addressBalance := "a" }
        (BalanceOutcome.ok "1") =
      ({ initialState with
           transactionHash := "h", addressBalance := "a",
           balanceError := some "Balance check requires Tauri desktop app." }, []) :=
  ⟨(c6_amended_tauri_gate
      { initialState with transactionHash := "h", addressBalance := "a" }
      initialState ⟨false, false, false, false⟩ FetchBlocksOutcome.failure 0
      (BalanceOutcome.ok "1") rfl).2.1,
   ((c6_amended_tauri_gate
      { initialState with transactionHash := "h", addressBalance := "a" }
      initialState ⟨false, false, false, false⟩ FetchBlocksOutcome.failure 0
      (BalanceOutcome.ok "1") rfl).2.2.1 (by decide)),
   ((c6_amended_tauri_gate
      { initialState with transactionHash := "h", addressBalance := "a" }
      initialState ⟨false, false, false, false⟩ FetchBlocksOutcome.failure 0
      (BalanceOutcome.ok "1") rfl).2.2.2.2.1 (by decide))⟩

/-- C7: mounted inside Tauri the block explorer performs an initial
fetchBlocks and installs an interval timer re-invoking fetchBlocks every
10000 ms whose cleanup clears it on unmount; outside Tauri no timer is
installed and no fetch occurs. -/
theorem c7_polling_fixed_interval (s : ExplorerState) (w : WindowEnv)
    (o : FetchBlocksOutcome) (now : Nat) :
    (isTauriOf w = true →
      (onMount s w o now).state = (fetchBlocks { s with isTauri := true } o now).1 ∧
      (onMount s w o now).ops = (fetchBlocks { s with isTauri := true } o now).2 ∧
      (onMount s w o now).interval = some { delayMs := 10000, action := fetchBlocks } ∧
      (onMount s w o now).cleanupClearsInterval = true) ∧
    (isTauriOf w = false →
      (onMount s w o now).ops = [] ∧ (onMount s w o now).interval = none) := by
  constructor
  · intro h
    simp [onMount, h]
  · intro h
    simp [onMount, h]

/-- Witness for C7 at a Tauri and at a non-Tauri window environment. -/
theorem c7_polling_fixed_interval_witness :
    (onMount initialState ⟨true, false, true, false⟩
        (FetchBlocksOutcome.success [] 0) 0).interval =
      some { delayMs := 10000, action := fetchBlocks } ∧
    (onMount initialState ⟨true, false, false, false⟩
        (FetchBlocksOutcome.success [] 0) 0).interval = none :=
  ⟨((c7_polling_fixed_interval initialState ⟨true, false, true, false⟩
      (FetchBlocksOutcome.success [] 0) 0).1 rfl).2.2.1,
   ((c7_polling_fixed_interval initialState ⟨true, false, false, false⟩
      (FetchBlocksOutcome.success [] 0) 0).2 rfl).2⟩

/-- C10: when fetchBlocks fails with a non-empty blocks list, the entire
state is preserved except the error string and the isLoading flag; the
placeholder block (number 0, all-zero hash and miner) together with
currentHeight reset to 0 is installed exactly when blocks was empty. -/
theorem c10_stale_data_preservation (s : ExplorerState) (now : Nat)
    (h : s.isTauri = true) :
    (s.blocks ≠ [] →
      (fetchBlocks s FetchBlocksOutcome.failure now).1 =
        { s with error := some fetchFailMsg, isLoading := false }) ∧
    (s.blocks = [] →
      (fetchBlocks s FetchBlocksOutcome.failure now).1 =
        { s with error := some fetchFailMsg, isLoading := false,
                 blocks := [placeholderBlock now], currentHeight := 0 }) ∧
    placeholderBlock now =
      { number := 0
        hash := "0x0000000000000000000000000000000000000000000000000000000000000000"
        miner := "0x0000000000000000000000000000000000000000"
        timestamp := now
        transaction_count := 0
        transactions := [] } := by
  refine ⟨?_, ?_, rfl⟩
  · intro hne
    simp [fetchBlocks, h, List.isEmpty_iff, hne]
  · intro he
    simp [fetchBlocks, h, List.isEmpty_iff, he]

/-- Witness for C10: failure over one retained block, and over the empty
list. -/
theorem c10_stale_data_preservation_witness :
    (fetchBlocks
        { initialState with
            isTauri := true, blocks := [placeholderBlock 3], currentHeight := 8 }
        FetchBlocksOutcome.failure 4).1 =
      { initialState with
          isTauri := true, blocks := [placeholderBlock 3], currentHeight := 8,
          error := some fetchFailMsg, isLoading := false } ∧
    (fetchBlocks { initialState with isTauri := true }
        FetchBlocksOutcome.failure 4).1 =
      { initialState with
          isTauri := true, error := some fetchFailMsg, isLoading := false,
          blocks := [placeholderBlock 4], currentHeight := 0 } :=
  ⟨(c10_stale_data_preservation
      { initialState with
          isTauri := true, blocks := [placeholderBlock 3], currentHeight := 8 }
      4 rfl).1 (by simp),
   ((c10_stale_data_preservation { initialState with isTauri := true } 4 rfl).2.1 rfl)⟩

end ChiralNetwork
